import Mathlib

/-!
Shallow embedding of the ThreadPool-CPP repository (src/threadpool.cpp) and
verification of its specification claims.

The C++ file implements a worker-thread pool: a bounded FIFO task queue, a
fixed or elastic (cached) set of worker threads, and a one-shot `Result`
future through which a `Task`'s value reaches the caller.

Modelling conventions:
- C++ `int` counters become `Int`; `size_t` quantities become `Nat`.
  The explicit `(size_t)taskQueMaxThreshHold_` cast at threadpool.cpp:71 is
  modelled by `sizeTOfInt` (conversion modulo 2^64).
- `std::queue<std::shared_ptr<Task>>` becomes `List Task` (push at the back,
  `front`/`pop` at the head).
- The registry `threads_` (a map keyed by thread id) is modelled by the list
  of its keys; the static counter `Thread::generateId_` is carried in the
  pool state.
- The custom counting semaphore inside `Result` (declared in the header,
  used at threadpool.cpp:311 and :319) becomes a `Nat` counter; a blocked
  `sem_.wait()` is modelled by `Result.get` returning `Option.none`.
- Mutex acquisition and condition-variable notification have no data effect
  and are dropped; the interleaving of lock-protected regions is modelled by
  the small-step relation `Step` further below.
-/

namespace ThreadPoolCPP

/-- Constant from threadpool.cpp:7, `TASK_MAX_THRESHHOLD = INT32_MAX`. -/
def TASK_MAX_THRESHHOLD : Int := 2147483647

/-- Constant from threadpool.cpp:8. -/
def THREAD_MAX_THRESHHOLD : Int := 1024

/-- Constant from threadpool.cpp:9, idle-reclaim threshold in seconds. -/
def THREAD_MAX_IDLE_TIME : Nat := 60

/-- C++ conversion of a signed value to `size_t`: reduction modulo 2^64,
    as performed by the cast `(size_t)taskQueMaxThreshHold_` at
    threadpool.cpp:71. -/
def sizeTOfInt (i : Int) : Nat := (i % (2 : Int) ^ 64).toNat

/-- Pool scheduling modes (declared in the header; used at
    threadpool.cpp:19, :56, :87, :173). -/
inductive PoolMode where
  | MODE_FIXED : PoolMode
  | MODE_CACHED : PoolMode
deriving DecidableEq

/-- Model of the type-erased value container `Any` (the "value box" of the
    spec): it either holds nothing (default construction), a string
    (the rejected-`get` path at threadpool.cpp:309 returns `""`), or an
    integer payload. -/
inductive Any where
  | empty : Any
  | str (s : String) : Any
  | int (n : Int) : Any
deriving DecidableEq

/-- Model of class `Result` (threadpool.cpp:298-320). The back pointer
    `task_` is ownership bookkeeping only and is dropped; the counting
    semaphore `sem_` becomes a `Nat` counter (`post` increments it, a `wait`
    that would block is modelled by `Result.get` returning `Option.none`). -/
structure Result where
  isValid_ : Bool
  sem_ : Nat
  any_ : Any
deriving DecidableEq

/-- Construction of a `Result` (threadpool.cpp:298-303): the semaphore
    starts at zero and `any_` is default-constructed (empty). The
    constructor's side effect `task_->setResult(this)` is modelled at the
    attachment site (`ThreadPool.submitTask`). -/
def Result.make (isValid : Bool) : Result :=
  { isValid_ := isValid, sem_ := 0, any_ := Any.empty }

/-- `Result::setVal` (threadpool.cpp:315-320): stores the task's return
    value and posts the semaphore. -/
def Result.setVal (r : Result) (any : Any) : Result :=
  { r with any_ := any, sem_ := r.sem_ + 1 }

/-- `Result::get` (threadpool.cpp:305-313): an invalid `Result` returns the
    empty string value immediately; a valid one blocks on the semaphore
    (modelled by `Option.none`) until `setVal` has posted it, then yields
    the stored value. -/
def Result.get (r : Result) : Option Any :=
  if r.isValid_ = false then Option.some (Any.str "")
  else if 0 < r.sem_ then Option.some r.any_ else Option.none

/-- Model of class `Task` (threadpool.cpp:280-295). The virtual value-
    producing operation `run()` takes no argument, so it is modelled by the
    value it produces, `runResult`. `result_` is the raw pointer to the
    attached `Result` (`nullptr` becomes `Option.none`); the constructor at
    threadpool.cpp:280-282 initialises it to null. -/
structure Task where
  runResult : Any
  result_ : Option Result
deriving DecidableEq

/-- `Task::setResult` (threadpool.cpp:292-295). -/
def Task.setResult (t : Task) (res : Result) : Task :=
  { t with result_ := Option.some res }

/-- `Task::exec` (threadpool.cpp:284-290): only when `result_` is non-null
    does it invoke the virtual `run()` and publish the value via
    `Result::setVal`. The second component counts how many times `run()`
    was invoked by this call, so that invocation (not just the published
    value) is observable in the model. -/
def Task.exec (t : Task) : Task × Nat :=
  match t.result_ with
  | Option.none => (t, 0)
  | Option.some r => ({ t with result_ := Option.some (r.setVal t.runResult) }, 1)

/-- Model of class `ThreadPool` (members declared in the header; every
    member is initialised at threadpool.cpp:12-21 and mutated only in this
    translation unit). `threads_` keeps the registry's keys; `generateId_`
    carries the static `Thread::generateId_` counter
    (threadpool.cpp:254-260). -/
structure ThreadPool where
  initThreadSize_ : Int
  taskSize_ : Int
  idleThreadSize_ : Int
  curThreadSize_ : Int
  taskQueMaxThreshHold_ : Int
  threadSizeThreshHold_ : Int
  poolMode_ : PoolMode
  isPoolRunning_ : Bool
  taskQue_ : List Task
  threads_ : List Nat
  generateId_ : Nat
deriving DecidableEq

/-- The `ThreadPool` constructor (threadpool.cpp:12-21); the containers
    start empty and the id counter at its static initial value 0
    (threadpool.cpp:254). -/
def ThreadPool.new : ThreadPool :=
  { initThreadSize_ := 0
    taskSize_ := 0
    idleThreadSize_ := 0
    curThreadSize_ := 0
    taskQueMaxThreshHold_ := TASK_MAX_THRESHHOLD
    threadSizeThreshHold_ := THREAD_MAX_THRESHHOLD
    poolMode_ := PoolMode.MODE_FIXED
    isPoolRunning_ := false
    taskQue_ := []
    threads_ := []
    generateId_ := 0 }

/-- `ThreadPool::checkRunningState` (threadpool.cpp:248-251). -/
def ThreadPool.checkRunningState (p : ThreadPool) : Bool := p.isPoolRunning_

/-- `ThreadPool::setMode` (threadpool.cpp:36-41). -/
def ThreadPool.setMode (p : ThreadPool) (mode : PoolMode) : ThreadPool :=
  if p.checkRunningState then p else { p with poolMode_ := mode }

/-- `ThreadPool::setTaskQueMaxThreshHold` (threadpool.cpp:44-49). -/
def ThreadPool.setTaskQueMaxThreshHold (p : ThreadPool) (threshhold : Int) : ThreadPool :=
  if p.checkRunningState then p else { p with taskQueMaxThreshHold_ := threshhold }

/-- `ThreadPool::setThreadSizeThreshHold` (threadpool.cpp:52-60): ignored
    while running, and effective only in `MODE_CACHED`. -/
def ThreadPool.setThreadSizeThreshHold (p : ThreadPool) (threshhold : Int) : ThreadPool :=
  if p.checkRunningState then p
  else if p.poolMode_ = PoolMode.MODE_CACHED then
    { p with threadSizeThreshHold_ := threshhold }
  else p

/-- The enqueue portion of `ThreadPool::submitTask` (threadpool.cpp:80-81):
    push the task at the back of the queue and increment `taskSize_`. The
    task carries its attached `Result` because the `Result` constructor at
    the `return` statement (threadpool.cpp:105) runs `task_->setResult`
    while the submission lock is still held, on the same shared task
    object that was enqueued. -/
def ThreadPool.enqueueTask (p : ThreadPool) (sp : Task) (res : Result) : ThreadPool :=
  { p with taskQue_ := p.taskQue_ ++ [sp.setResult res], taskSize_ := p.taskSize_ + 1 }

/-- The elastic-growth portion of `ThreadPool::submitTask`
    (threadpool.cpp:87-102): in cached mode, when pending tasks outnumber
    idle workers and the worker count is below its threshold, register and
    start one new thread and update the counters. -/
def ThreadPool.maybeSpawn (p : ThreadPool) : ThreadPool :=
  if p.poolMode_ = PoolMode.MODE_CACHED ∧ p.taskSize_ > p.idleThreadSize_
      ∧ p.curThreadSize_ < p.threadSizeThreshHold_ then
    { p with
      threads_ := p.threads_ ++ [p.generateId_]
      generateId_ := p.generateId_ + 1
      curThreadSize_ := p.curThreadSize_ + 1
      idleThreadSize_ := p.idleThreadSize_ + 1 }
  else p

/-- `ThreadPool::submitTask` (threadpool.cpp:63-107). The bounded wait at
    threadpool.cpp:70-71 succeeds exactly when the predicate
    `taskQue_.size() < (size_t)taskQueMaxThreshHold_` holds under the lock
    at the decision instant (interleaved worker dequeues that could free
    space during the wait are separate steps of the `Step` relation below);
    if it fails the task is not enqueued and an invalid `Result` is
    returned (threadpool.cpp:76). -/
def ThreadPool.submitTask (p : ThreadPool) (sp : Task) : ThreadPool × Result :=
  if p.taskQue_.length < sizeTOfInt p.taskQueMaxThreshHold_ then
    ((p.enqueueTask sp (Result.make true)).maybeSpawn, Result.make true)
  else
    (p, Result.make false)

/-- `ThreadPool::start` (threadpool.cpp:110-135): set the running flag,
    record the baseline in `initThreadSize_` and `curThreadSize_`, register
    `initThreadSize` new threads (ids from the static counter), and count
    each started thread as idle. There is no comparison against
    `threadSizeThreshHold_` anywhere in this function. -/
def ThreadPool.start (p : ThreadPool) (initThreadSize : Int) : ThreadPool :=
  { p with
    isPoolRunning_ := true
    initThreadSize_ := initThreadSize
    curThreadSize_ := initThreadSize
    threads_ := p.threads_ ++ (List.range initThreadSize.toNat).map (fun i => p.generateId_ + i)
    generateId_ := p.generateId_ + initThreadSize.toNat
    idleThreadSize_ := p.idleThreadSize_ + (initThreadSize.toNat : Int) }

/-- Global system state used by the small-step semantics: the pool together
    with histories of the events the claims talk about. `subLog` records
    accepted (enqueued) submissions in order, `deqLog` the dequeues
    performed at threadpool.cpp:220-222 in order, `inFlight` the tasks
    dequeued but whose `exec` call has not returned yet, and `execLog` the
    tasks whose `exec` call (threadpool.cpp:237-241) has completed. -/
structure Sys where
  pool : ThreadPool
  subLog : List Task
  deqLog : List Task
  inFlight : List Task
  execLog : List Task
deriving DecidableEq

/-- Interleaving semantics: one step per lock-protected region of
    threadpool.cpp. The `ok` flag adds no behaviour when `false`; when
    `true` it imposes the two configuration-time side conditions (on
    `start` and on `setThreadSizeThreshHold`) that the source never checks,
    so that `Step false` is the faithful semantics and `Step true` its
    restriction to validated configuration calls. -/
inductive Step (ok : Bool) : Sys → Sys → Prop where
  /-- A caller runs `setMode` (threadpool.cpp:36-41). -/
  | setModeStep (s : Sys) (mode : PoolMode) :
      Step ok s { s with pool := s.pool.setMode mode }
  /-- A caller runs `setTaskQueMaxThreshHold` (threadpool.cpp:44-49). -/
  | setTaskQueMaxStep (s : Sys) (threshhold : Int) :
      Step ok s { s with pool := s.pool.setTaskQueMaxThreshHold threshhold }
  /-- A caller runs `setThreadSizeThreshHold` (threadpool.cpp:52-60). -/
  | setThreadSizeStep (s : Sys) (threshhold : Int)
      (hok : ok = true → s.pool.curThreadSize_ ≤ threshhold) :
      Step ok s { s with pool := s.pool.setThreadSizeThreshHold threshhold }
  /-- A caller runs `start` (threadpool.cpp:110-135). -/
  | startStep (s : Sys) (initThreadSize : Int)
      (hok : ok = true → initThreadSize ≤ s.pool.threadSizeThreshHold_) :
      Step ok s { s with pool := s.pool.start initThreadSize }
  /-- A caller's `submitTask` whose bounded wait observed a free queue slot
      (threadpool.cpp:70-105): the task, with its `Result` attached, is
      enqueued. -/
  | submitOkStep (s : Sys) (sp : Task)
      (h : s.pool.taskQue_.length < sizeTOfInt s.pool.taskQueMaxThreshHold_) :
      Step ok s { s with
        pool := (s.pool.submitTask sp).1
        subLog := s.subLog ++ [sp.setResult (Result.make true)] }
  /-- A caller's `submitTask` whose bounded wait timed out with the queue
      still full (threadpool.cpp:70-77). -/
  | submitRejStep (s : Sys) (sp : Task)
      (h : ¬ s.pool.taskQue_.length < sizeTOfInt s.pool.taskQueMaxThreshHold_) :
      Step ok s { s with pool := (s.pool.submitTask sp).1 }
  /-- The destructor clears the running flag (threadpool.cpp:26); the rest
      of the teardown is the workers' own exit steps. -/
  | teardownStep (s : Sys) :
      Step ok s { s with pool := { s.pool with isPoolRunning_ := false } }
  /-- A worker observes an empty queue and a cleared running flag and exits
      (threadpool.cpp:161-171): it erases itself from the registry and
      returns. Note the counters are not touched on this path. -/
  | workerExitStep (s : Sys) (tid : Nat)
      (hmem : tid ∈ s.pool.threads_)
      (hq : s.pool.taskQue_ = [])
      (hrun : s.pool.isPoolRunning_ = false) :
      Step ok s { s with pool := { s.pool with threads_ := s.pool.threads_.erase tid } }
  /-- A cached-mode worker whose 1-second wait timed out reclaims itself
      (threadpool.cpp:173-195): requires an empty queue (it is inside the
      `while (taskQue_.size() == 0)` loop), idle duration `dur` of at least
      `THREAD_MAX_IDLE_TIME`, and a worker count strictly above the
      baseline `initThreadSize_`. -/
  | workerReclaimStep (s : Sys) (tid : Nat) (dur : Nat)
      (hmem : tid ∈ s.pool.threads_)
      (hq : s.pool.taskQue_ = [])
      (hmode : s.pool.poolMode_ = PoolMode.MODE_CACHED)
      (hdur : THREAD_MAX_IDLE_TIME ≤ dur)
      (hcur : s.pool.initThreadSize_ < s.pool.curThreadSize_) :
      Step ok s { s with pool := { s.pool with
        threads_ := s.pool.threads_.erase tid
        curThreadSize_ := s.pool.curThreadSize_ - 1
        idleThreadSize_ := s.pool.idleThreadSize_ - 1 } }
  /-- A worker observes a non-empty queue and leaves the wait loop
      (threadpool.cpp:214-233): it decrements the idle count, pops the head
      task and decrements `taskSize_`. This step has no condition on the
      running flag: the flag is only consulted inside the empty-queue loop. -/
  | workerDequeueStep (s : Sys) (tid : Nat) (t : Task) (rest : List Task)
      (hmem : tid ∈ s.pool.threads_)
      (hq : s.pool.taskQue_ = t :: rest) :
      Step ok s { s with
        pool := { s.pool with
          taskQue_ := rest
          taskSize_ := s.pool.taskSize_ - 1
          idleThreadSize_ := s.pool.idleThreadSize_ - 1 }
        deqLog := s.deqLog ++ [t]
        inFlight := s.inFlight ++ [t] }
  /-- The worker's `task->exec()` call outside the lock returns and the
      worker becomes idle again (threadpool.cpp:237-244). -/
  | execDoneStep (s : Sys) (t : Task)
      (hmem : t ∈ s.inFlight) :
      Step ok s { s with
        pool := { s.pool with idleThreadSize_ := s.pool.idleThreadSize_ + 1 }
        inFlight := s.inFlight.erase t
        execLog := s.execLog ++ [t] }

/-- The freshly constructed system: a new pool, no history. -/
def initSys : Sys :=
  { pool := ThreadPool.new, subLog := [], deqLog := [], inFlight := [], execLog := [] }

/-- States reachable from a fresh pool by interleaved caller and worker
    steps. `Reachable false` is the faithful semantics; `Reachable true`
    additionally assumes validated configuration calls. -/
def Reachable (ok : Bool) (s : Sys) : Prop :=
  Relation.ReflTransGen (Step ok) initSys s

/-! ### Concrete states used to settle individual claims -/

/-- A task whose `run()` produces the integer 42, fresh from the `Task`
    constructor (no `Result` attached yet). -/
def c1task : Task := { runResult := Any.int 42, result_ := Option.none }

/-- The system after `start(1)` on a fresh pool. -/
def c1s1 : Sys := { initSys with pool := initSys.pool.start 1 }

/-- Then one accepted submission of `c1task`. -/
def c1s2 : Sys :=
  { c1s1 with
    pool := (c1s1.pool.submitTask c1task).1
    subLog := c1s1.subLog ++ [c1task.setResult (Result.make true)] }

/-- Then the destructor clears the running flag while the task is still
    queued. -/
def c1s3 : Sys := { c1s2 with pool := { c1s2.pool with isPoolRunning_ := false } }

/-- Then worker 0 dequeues the task, although the pool is no longer
    running. -/
def c1s4 : Sys :=
  { c1s3 with
    pool := { c1s3.pool with
      taskQue_ := []
      taskSize_ := c1s3.pool.taskSize_ - 1
      idleThreadSize_ := c1s3.pool.idleThreadSize_ - 1 }
    deqLog := c1s3.deqLog ++ [c1task.setResult (Result.make true)]
    inFlight := c1s3.inFlight ++ [c1task.setResult (Result.make true)] }

/-- Then the worker's `task->exec()` call completes. -/
def c1s5 : Sys :=
  { c1s4 with
    pool := { c1s4.pool with idleThreadSize_ := c1s4.pool.idleThreadSize_ + 1 }
    inFlight := c1s4.inFlight.erase (c1task.setResult (Result.make true))
    execLog := c1s4.execLog ++ [c1task.setResult (Result.make true)] }

/-- A stopped single-worker system with an empty queue, used to witness the
    worker-exit step. -/
def c1wSysA : Sys :=
  { initSys with pool := { ThreadPool.new with threads_ := [0], isPoolRunning_ := false } }

/-- The system `c1wSysA` after worker 0 deregisters itself. -/
def c1wSysB : Sys :=
  { c1wSysA with pool := { c1wSysA.pool with threads_ := c1wSysA.pool.threads_.erase 0 } }

/-- A task whose `run()` produces the integer 7, with no `Result`
    attached. -/
def c4task : Task := { runResult := Any.int 7, result_ := Option.none }

/-- The same task with a valid `Result` attached. -/
def c4taskAttached : Task := c4task.setResult (Result.make true)

/-- The system after `start(2000)` on a fresh pool: 2000 workers although
    the threshold is still the default 1024. -/
def c5sys : Sys := { initSys with pool := initSys.pool.start 2000 }

/-- A fresh pool switched to cached mode. -/
def c6sysA : Sys := { initSys with pool := initSys.pool.setMode PoolMode.MODE_CACHED }

/-- The cached-mode pool after `start(1)`. -/
def c6sys : Sys := { c6sysA with pool := c6sysA.pool.start 1 }

/-- A fresh pool whose queue capacity threshold has been set to the
    negative value -1 before start (the setter performs no validation). -/
def c7pool : ThreadPool := ThreadPool.new.setTaskQueMaxThreshHold (-1)

/-- A task used for the capacity counterexample. -/
def c7task : Task := { runResult := Any.int 3, result_ := Option.none }

/-- A fresh pool with a small positive queue capacity. -/
def c7okPool : ThreadPool := ThreadPool.new.setTaskQueMaxThreshHold 5

/-- A task used in submission witnesses. -/
def c2task : Task := { runResult := Any.int 7, result_ := Option.none }

/-- A fresh pool whose queue capacity threshold is zero: every submission
    times out. -/
def c3pool : ThreadPool := ThreadPool.new.setTaskQueMaxThreshHold 0

/-- A task used for the rejected-submission witness. -/
def c3task : Task := { runResult := Any.int 9, result_ := Option.none }

/-- A running pool with no workers, used to witness the configuration
    freeze. -/
def c9pool : ThreadPool := ThreadPool.new.start 0

/-! ### Frame lemmas about the pool operations -/

lemma setMode_threads (p : ThreadPool) (mode : PoolMode) :
    (p.setMode mode).threads_ = p.threads_ := by
  unfold ThreadPool.setMode
  split <;> rfl

lemma setTaskQueMax_threads (p : ThreadPool) (threshhold : Int) :
    (p.setTaskQueMaxThreshHold threshhold).threads_ = p.threads_ := by
  unfold ThreadPool.setTaskQueMaxThreshHold
  split <;> rfl

lemma setThreadSize_threads (p : ThreadPool) (threshhold : Int) :
    (p.setThreadSizeThreshHold threshhold).threads_ = p.threads_ := by
  unfold ThreadPool.setThreadSizeThreshHold
  split
  · rfl
  · split <;> rfl

lemma submitTask_fst_threads_ge (p : ThreadPool) (sp : Task) :
    p.threads_.length ≤ ((p.submitTask sp).1).threads_.length := by
  unfold ThreadPool.submitTask ThreadPool.maybeSpawn ThreadPool.enqueueTask
  split
  · split
    · simp
    · simp
  · simp

lemma maybeSpawn_frame (p : ThreadPool) :
    (p.maybeSpawn).initThreadSize_ = p.initThreadSize_ ∧
    (p.maybeSpawn).taskSize_ = p.taskSize_ ∧
    (p.maybeSpawn).taskQueMaxThreshHold_ = p.taskQueMaxThreshHold_ ∧
    (p.maybeSpawn).threadSizeThreshHold_ = p.threadSizeThreshHold_ ∧
    (p.maybeSpawn).poolMode_ = p.poolMode_ ∧
    (p.maybeSpawn).isPoolRunning_ = p.isPoolRunning_ ∧
    (p.maybeSpawn).taskQue_ = p.taskQue_ := by
  unfold ThreadPool.maybeSpawn
  split <;> exact ⟨rfl, rfl, rfl, rfl, rfl, rfl, rfl⟩

lemma submitTask_accept (p : ThreadPool) (sp : Task)
    (h : p.taskQue_.length < sizeTOfInt p.taskQueMaxThreshHold_) :
    p.submitTask sp = ((p.enqueueTask sp (Result.make true)).maybeSpawn, Result.make true) := by
  unfold ThreadPool.submitTask
  rw [if_pos h]

lemma submitTask_reject (p : ThreadPool) (sp : Task)
    (h : ¬ p.taskQue_.length < sizeTOfInt p.taskQueMaxThreshHold_) :
    p.submitTask sp = (p, Result.make false) := by
  unfold ThreadPool.submitTask
  rw [if_neg h]

lemma submitTask_fst_frame (p : ThreadPool) (sp : Task) :
    ((p.submitTask sp).1).initThreadSize_ = p.initThreadSize_ ∧
    ((p.submitTask sp).1).taskQueMaxThreshHold_ = p.taskQueMaxThreshHold_ ∧
    ((p.submitTask sp).1).threadSizeThreshHold_ = p.threadSizeThreshHold_ ∧
    ((p.submitTask sp).1).poolMode_ = p.poolMode_ ∧
    ((p.submitTask sp).1).isPoolRunning_ = p.isPoolRunning_ := by
  unfold ThreadPool.submitTask ThreadPool.maybeSpawn ThreadPool.enqueueTask
  split
  · split <;> exact ⟨rfl, rfl, rfl, rfl, rfl⟩
  · exact ⟨rfl, rfl, rfl, rfl, rfl⟩

lemma submitTask_fst_cur (p : ThreadPool) (sp : Task) :
    ((p.submitTask sp).1).curThreadSize_ = p.curThreadSize_ ∨
    (p.curThreadSize_ < p.threadSizeThreshHold_ ∧
      ((p.submitTask sp).1).curThreadSize_ = p.curThreadSize_ + 1) := by
  unfold ThreadPool.submitTask ThreadPool.maybeSpawn ThreadPool.enqueueTask
  split
  · split
    · next h => exact Or.inr ⟨h.2.2, rfl⟩
    · exact Or.inl rfl
  · exact Or.inl rfl

lemma submitTask_fst_taskQue (p : ThreadPool) (sp : Task)
    (h : p.taskQue_.length < sizeTOfInt p.taskQueMaxThreshHold_) :
    ((p.submitTask sp).1).taskQue_ = p.taskQue_ ++ [sp.setResult (Result.make true)] := by
  rw [submitTask_accept p sp h]
  exact (maybeSpawn_frame (p.enqueueTask sp (Result.make true))).2.2.2.2.2.2

/-! ### Reachability invariants -/

/-- In every reachable state of the faithful semantics the current worker
    count is at least the baseline recorded by the last `start` call: the
    only transition that lowers `curThreadSize_`, idle reclamation, is
    guarded by `curThreadSize_ > initThreadSize_` (threadpool.cpp:181-182). -/
lemma init_le_cur_of_reachable (s : Sys) (h : Reachable false s) :
    s.pool.initThreadSize_ ≤ s.pool.curThreadSize_ := by
  unfold Reachable at h
  induction h with
  | refl => decide
  | @tail b c hr hstep ih =>
    cases hstep with
    | setModeStep mode =>
      dsimp only
      simp only [ThreadPool.setMode]
      split <;> exact ih
    | setTaskQueMaxStep threshhold =>
      dsimp only
      simp only [ThreadPool.setTaskQueMaxThreshHold]
      split <;> exact ih
    | setThreadSizeStep threshhold hok =>
      dsimp only
      simp only [ThreadPool.setThreadSizeThreshHold]
      split
      · exact ih
      · split <;> exact ih
    | startStep initThreadSize hok => exact le_refl _
    | submitOkStep sp h =>
      dsimp only
      rcases submitTask_fst_cur b.pool sp with hc | ⟨-, hc⟩ <;>
        rw [(submitTask_fst_frame b.pool sp).1, hc] <;> omega
    | submitRejStep sp h =>
      dsimp only
      rw [submitTask_reject b.pool sp h]
      exact ih
    | teardownStep => exact ih
    | workerExitStep tid hmem hq hrun => exact ih
    | workerReclaimStep tid dur hmem hq hmode hdur hcur =>
      dsimp only
      omega
    | workerDequeueStep tid t rest hmem hq => exact ih
    | execDoneStep t hmem => exact ih

/-- C5 (amended): under validated configuration calls (`Reachable true`:
    every `start` baseline at most the current threshold, and
    `setThreadSizeThreshHold` never called with an argument below the
    current worker count) the current worker count never exceeds the
    maximum worker count threshold `threadSizeThreshHold_`: the
    elastic-growth branch of `submitTask` is guarded by
    `curThreadSize_ < threadSizeThreshHold_` (threadpool.cpp:89). The
    validation hypotheses are necessary: the faithful semantics violates
    the invariant, see the counterexample. -/
theorem c5_worker_count_bounded (s : Sys) (h : Reachable true s) :
    s.pool.curThreadSize_ ≤ s.pool.threadSizeThreshHold_ := by
  unfold Reachable at h
  induction h with
  | refl => decide
  | @tail b c hr hstep ih =>
    cases hstep with
    | setModeStep mode =>
      dsimp only
      simp only [ThreadPool.setMode]
      split <;> exact ih
    | setTaskQueMaxStep threshhold =>
      dsimp only
      simp only [ThreadPool.setTaskQueMaxThreshHold]
      split <;> exact ih
    | setThreadSizeStep threshhold hok =>
      dsimp only
      simp only [ThreadPool.setThreadSizeThreshHold]
      split
      · exact ih
      · split
        · exact hok rfl
        · exact ih
    | startStep initThreadSize hok => exact hok rfl
    | submitOkStep sp h =>
      dsimp only
      rcases submitTask_fst_cur b.pool sp with hc | ⟨hlt, hc⟩ <;>
        rw [(submitTask_fst_frame b.pool sp).2.2.1, hc] <;> omega
    | submitRejStep sp h =>
      dsimp only
      rw [submitTask_reject b.pool sp h]
      exact ih
    | teardownStep => exact ih
    | workerExitStep tid hmem hq hrun => exact ih
    | workerReclaimStep tid dur hmem hq hmode hdur hcur =>
      dsimp only
      omega
    | workerDequeueStep tid t rest hmem hq => exact ih
    | execDoneStep t hmem => exact ih

/-- History invariant: the dequeue log followed by the current queue
    contents is exactly the log of accepted submissions. Submissions append
    at the back (threadpool.cpp:80) and workers remove at the front
    (threadpool.cpp:220-221). -/
lemma deqLog_append_queue_eq_subLog (s : Sys) (h : Reachable false s) :
    s.deqLog ++ s.pool.taskQue_ = s.subLog := by
  unfold Reachable at h
  induction h with
  | refl => rfl
  | @tail b c hr hstep ih =>
    cases hstep with
    | setModeStep mode =>
      dsimp only
      simp only [ThreadPool.setMode]
      split <;> exact ih
    | setTaskQueMaxStep threshhold =>
      dsimp only
      simp only [ThreadPool.setTaskQueMaxThreshHold]
      split <;> exact ih
    | setThreadSizeStep threshhold hok =>
      dsimp only
      simp only [ThreadPool.setThreadSizeThreshHold]
      split
      · exact ih
      · split <;> exact ih
    | startStep initThreadSize hok => exact ih
    | submitOkStep sp h =>
      dsimp only
      rw [submitTask_fst_taskQue b.pool sp h, ← List.append_assoc, ih]
    | submitRejStep sp h =>
      dsimp only
      rw [submitTask_reject b.pool sp h]
      exact ih
    | teardownStep => exact ih
    | workerExitStep tid hmem hq hrun => exact ih
    | workerReclaimStep tid dur hmem hq hmode hdur hcur => exact ih
    | workerDequeueStep tid t rest hmem hq =>
      dsimp only
      rw [hq] at ih
      rw [List.append_assoc]
      exact ih
    | execDoneStep t hmem => exact ih

/-! ### Claim theorems -/

/-- C1 (counterexample): the claim says that from the moment the running
    flag is cleared no worker dequeues or runs a queued task. In the
    faithful semantics this is false: after `start(1)`, one accepted
    submission and the destructor clearing the flag, the state `c1s3` has
    the flag cleared and the task still queued, yet the worker dequeue step
    applies (the running flag is only consulted inside the empty-queue loop
    at threadpool.cpp:161-171) and the task is subsequently executed. -/
theorem c1_no_dequeue_after_stop_counterexample :
    Reachable false c1s3 ∧
    c1s3.pool.isPoolRunning_ = false ∧
    c1s3.pool.taskQue_ = [c1task.setResult (Result.make true)] ∧
    Step false c1s3 c1s4 ∧
    c1s4.deqLog = [c1task.setResult (Result.make true)] ∧
    Step false c1s4 c1s5 ∧
    c1s5.execLog = [c1task.setResult (Result.make true)] := by
  refine ⟨?_, rfl, by decide, ?_, by decide, ?_, by decide⟩
  · exact Relation.ReflTransGen.tail
      (Relation.ReflTransGen.tail
        (Relation.ReflTransGen.single
          (Step.startStep initSys 1 (fun hh => Bool.noConfusion hh)))
        (Step.submitOkStep c1s1 c1task (by decide)))
      (Step.teardownStep c1s2)
  · exact Step.workerDequeueStep c1s3 0 (c1task.setResult (Result.make true)) []
      (by decide) (by decide)
  · exact Step.execDoneStep c1s4 (c1task.setResult (Result.make true)) (by decide)

/-- C1 (amended): tasks queued at teardown are drained, not dropped. A
    worker deregisters itself (by self-exit at threadpool.cpp:161-171 or by
    idle reclamation at threadpool.cpp:173-195) only when it has observed
    an empty task queue, so no step that shrinks the worker registry can
    leave a queued task behind; a worker that observes a non-empty queue
    dequeues and executes it regardless of the running flag. -/
theorem c1_workers_drain_before_exit (s s2 : Sys) (hstep : Step false s s2)
    (hshrink : s2.pool.threads_.length < s.pool.threads_.length) :
    s.pool.taskQue_ = [] := by
  cases hstep with
  | setModeStep mode =>
    dsimp only at hshrink
    rw [setMode_threads] at hshrink
    omega
  | setTaskQueMaxStep threshhold =>
    dsimp only at hshrink
    rw [setTaskQueMax_threads] at hshrink
    omega
  | setThreadSizeStep threshhold hok =>
    dsimp only at hshrink
    rw [setThreadSize_threads] at hshrink
    omega
  | startStep initThreadSize hok =>
    dsimp only at hshrink
    simp only [ThreadPool.start, List.length_append] at hshrink
    omega
  | submitOkStep sp h =>
    dsimp only at hshrink
    have hge := submitTask_fst_threads_ge s.pool sp
    omega
  | submitRejStep sp h =>
    dsimp only at hshrink
    have hge := submitTask_fst_threads_ge s.pool sp
    omega
  | teardownStep =>
    dsimp only at hshrink
    omega
  | workerExitStep tid hmem hq hrun => exact hq
  | workerReclaimStep tid dur hmem hq hmode hdur hcur => exact hq
  | workerDequeueStep tid t rest hmem hq =>
    dsimp only at hshrink
    omega
  | execDoneStep t hmem =>
    dsimp only at hshrink
    omega

/-- Witness for C1 (amended) at a concrete worker-exit step. -/
theorem c1_workers_drain_before_exit_witness : c1wSysA.pool.taskQue_ = [] :=
  c1_workers_drain_before_exit c1wSysA c1wSysB
    (Step.workerExitStep c1wSysA 0 (by decide) rfl rfl) (by decide)

/-- C2: a submission accepted within the bounded wait returns a valid
    `Result` that blocks before completion (`get` would wait on the
    semaphore) and, once the worker runs `Task::exec` on the enqueued task,
    holds exactly the value the task's `run()` produced, which `get` then
    yields. -/
theorem c2_future_yields_run_value (p : ThreadPool) (sp : Task)
    (h : p.taskQue_.length < sizeTOfInt p.taskQueMaxThreshHold_) :
    ((p.submitTask sp).2).isValid_ = true ∧
    ((p.submitTask sp).2).get = Option.none ∧
    ((p.submitTask sp).1).taskQue_ = p.taskQue_ ++ [sp.setResult ((p.submitTask sp).2)] ∧
    ((sp.setResult ((p.submitTask sp).2)).exec).2 = 1 ∧
    ((sp.setResult ((p.submitTask sp).2)).exec).1.result_
      = Option.some (((p.submitTask sp).2).setVal sp.runResult) ∧
    (((p.submitTask sp).2).setVal sp.runResult).get = Option.some sp.runResult := by
  rw [submitTask_accept p sp h]
  exact ⟨rfl, rfl, (maybeSpawn_frame (p.enqueueTask sp (Result.make true))).2.2.2.2.2.2,
    rfl, rfl, rfl⟩

/-- Witness for C2 on a fresh pool and a task producing 7. -/
theorem c2_future_yields_run_value_witness :
    ((ThreadPool.new.submitTask c2task).2).isValid_ = true ∧
    ((ThreadPool.new.submitTask c2task).2).get = Option.none ∧
    ((ThreadPool.new.submitTask c2task).1).taskQue_
      = ThreadPool.new.taskQue_ ++ [c2task.setResult ((ThreadPool.new.submitTask c2task).2)] ∧
    ((c2task.setResult ((ThreadPool.new.submitTask c2task).2)).exec).2 = 1 ∧
    ((c2task.setResult ((ThreadPool.new.submitTask c2task).2)).exec).1.result_
      = Option.some (((ThreadPool.new.submitTask c2task).2).setVal c2task.runResult) ∧
    (((ThreadPool.new.submitTask c2task).2).setVal c2task.runResult).get
      = Option.some c2task.runResult :=
  c2_future_yields_run_value ThreadPool.new c2task (by decide)

/-- C3: when the queue stays at or above the capacity threshold for the
    whole bounded wait, the submission is rejected: the pool state
    (including queue and `taskSize_`) is returned unchanged, the `Result`
    is invalid with an unposted semaphore, and its `get` yields the empty
    string immediately instead of waiting on the semaphore. -/
theorem c3_rejected_submission (p : ThreadPool) (sp : Task)
    (h : ¬ p.taskQue_.length < sizeTOfInt p.taskQueMaxThreshHold_) :
    p.submitTask sp = (p, Result.make false) ∧
    ((p.submitTask sp).2).isValid_ = false ∧
    ((p.submitTask sp).2).sem_ = 0 ∧
    ((p.submitTask sp).2).get = Option.some (Any.str "") := by
  rw [submitTask_reject p sp h]
  exact ⟨rfl, rfl, rfl, rfl⟩

/-- Witness for C3 on a pool whose capacity threshold is zero. -/
theorem c3_rejected_submission_witness :
    c3pool.submitTask c3task = (c3pool, Result.make false) ∧
    ((c3pool.submitTask c3task).2).isValid_ = false ∧
    ((c3pool.submitTask c3task).2).sem_ = 0 ∧
    ((c3pool.submitTask c3task).2).get = Option.some (Any.str "") :=
  c3_rejected_submission c3pool c3task (by decide)

/-- C4 (counterexample): the claim says `run` is invoked even when no
    Future is attached. It is false: on a task with `result_` null,
    `Task::exec` (threadpool.cpp:284-290) invokes `run()` zero times and
    does nothing, because the call sits inside `if (result_ != nullptr)`. -/
theorem c4_run_skipped_without_future_counterexample :
    c4task.result_ = Option.none ∧ c4task.exec = (c4task, 0) :=
  ⟨rfl, rfl⟩

/-- C4 (amended): `Task::exec` invokes `run()` and publishes its value into
    the attached `Result` precisely when a `Result` is attached; with no
    `Result` attached it does nothing and `run()` is not invoked. -/
theorem c4_exec_runs_iff_attached (t : Task) :
    (t.result_ = Option.none → t.exec = (t, 0)) ∧
    (∀ r, t.result_ = Option.some r →
      t.exec = ({ t with result_ := Option.some (r.setVal t.runResult) }, 1)) := by
  constructor
  · intro hr
    unfold Task.exec
    rw [hr]
  · intro r hr
    unfold Task.exec
    rw [hr]

/-- Witness for C4 (amended) on a task with a valid `Result` attached. -/
theorem c4_exec_runs_iff_attached_witness :
    c4taskAttached.exec
      = ({ c4taskAttached with
            result_ := Option.some ((Result.make true).setVal c4taskAttached.runResult) }, 1) :=
  (c4_exec_runs_iff_attached c4taskAttached).2 (Result.make true) rfl

/-- C5 (counterexample): the claim says the current worker count never
    exceeds the maximum worker count threshold, in particular for the
    workers spawned by `start`. It is false: `start` (threadpool.cpp:110-135)
    performs no comparison against `threadSizeThreshHold_`, so
    `start(2000)` on a fresh pool (threshold 1024) is a reachable state
    with 2000 workers. -/
theorem c5_start_exceeds_threshold_counterexample :
    Reachable false c5sys ∧
    c5sys.pool.curThreadSize_ = 2000 ∧
    c5sys.pool.threadSizeThreshHold_ = 1024 ∧
    ¬ c5sys.pool.curThreadSize_ ≤ c5sys.pool.threadSizeThreshHold_ :=
  ⟨Relation.ReflTransGen.single (Step.startStep initSys 2000 (fun hh => Bool.noConfusion hh)),
    rfl, rfl, by decide⟩

/-- Witness for C5 (amended) at the initial state. -/
theorem c5_worker_count_bounded_witness :
    initSys.pool.curThreadSize_ ≤ initSys.pool.threadSizeThreshHold_ :=
  c5_worker_count_bounded initSys Relation.ReflTransGen.refl

/-- C6: in every reachable state of the faithful semantics — in particular
    while the pool is running in cached mode — the current worker count is
    at least the baseline recorded at `start`: idle reclamation
    (threadpool.cpp:173-195) is the only step that lowers it, and its
    guard requires an idle duration of at least `THREAD_MAX_IDLE_TIME` and
    `curThreadSize_ > initThreadSize_`. -/
theorem c6_baseline_never_breached (s : Sys) (h : Reachable false s)
    (hrun : s.pool.isPoolRunning_ = true)
    (hmode : s.pool.poolMode_ = PoolMode.MODE_CACHED) :
    s.pool.initThreadSize_ ≤ s.pool.curThreadSize_ :=
  init_le_cur_of_reachable s h

/-- Witness for C6 on a running cached-mode pool with baseline 1. -/
theorem c6_baseline_never_breached_witness :
    c6sys.pool.initThreadSize_ ≤ c6sys.pool.curThreadSize_ :=
  c6_baseline_never_breached c6sys
    (Relation.ReflTransGen.tail
      (Relation.ReflTransGen.single (Step.setModeStep initSys PoolMode.MODE_CACHED))
      (Step.startStep c6sysA 1 (fun hh => Bool.noConfusion hh)))
    rfl (by decide)

/-- C7 (counterexample): the claim says the queue length after a successful
    submission is at most the configured capacity threshold. With the
    threshold set to -1 before start (the setter performs no validation)
    the `(size_t)` cast at threadpool.cpp:71 turns the bound into 2^64-1,
    the submission succeeds, and the queue length 1 exceeds the configured
    threshold -1. -/
theorem c7_negative_threshold_counterexample :
    ((c7pool.submitTask c7task).2).isValid_ = true ∧
    ((c7pool.submitTask c7task).1).taskQue_.length = 1 ∧
    ((c7pool.submitTask c7task).1).taskQueMaxThreshHold_ = -1 ∧
    ¬ (((c7pool.submitTask c7task).1).taskQue_.length : Int)
        ≤ ((c7pool.submitTask c7task).1).taskQueMaxThreshHold_ := by
  decide

/-- C7 (amended): provided the configured capacity threshold is
    nonnegative (and within the `size_t` range, as every value of a C++
    `int` is), a submission accepted by the guarded wait leaves the queue
    length at most the configured threshold, which the submission itself
    does not change: the enqueue at threadpool.cpp:80 happens only after
    the predicate at threadpool.cpp:71 was observed under the lock. -/
theorem c7_queue_within_capacity (p : ThreadPool) (sp : Task)
    (h0 : 0 ≤ p.taskQueMaxThreshHold_)
    (h1 : p.taskQueMaxThreshHold_ < 2 ^ 64)
    (h : p.taskQue_.length < sizeTOfInt p.taskQueMaxThreshHold_) :
    (((p.submitTask sp).1).taskQue_.length : Int) ≤ p.taskQueMaxThreshHold_ ∧
    ((p.submitTask sp).1).taskQueMaxThreshHold_ = p.taskQueMaxThreshHold_ := by
  have hs : sizeTOfInt p.taskQueMaxThreshHold_ = p.taskQueMaxThreshHold_.toNat := by
    unfold sizeTOfInt
    rw [Int.emod_eq_of_lt h0 h1]
  constructor
  · rw [submitTask_fst_taskQue p sp h, List.length_append, List.length_singleton]
    rw [hs] at h
    omega
  · exact (submitTask_fst_frame p sp).2.1

/-- Witness for C7 (amended) on a pool with capacity 5. -/
theorem c7_queue_within_capacity_witness :
    (((c7okPool.submitTask c7task).1).taskQue_.length : Int) ≤ c7okPool.taskQueMaxThreshHold_ ∧
    ((c7okPool.submitTask c7task).1).taskQueMaxThreshHold_ = c7okPool.taskQueMaxThreshHold_ :=
  c7_queue_within_capacity c7okPool c7task (by decide) (by decide) (by decide)

/-- C8: tasks are dequeued in FIFO submission order. In every reachable
    state the ordered log of dequeued tasks is an initial segment of the
    ordered log of accepted submissions (the pending tasks being the
    remainder), so for any two accepted tasks the one submitted first is
    taken from the head of the queue first; nothing is claimed about
    completion order. -/
theorem c8_fifo_dequeue_order (s : Sys) (h : Reachable false s) :
    ∃ pending, s.deqLog ++ pending = s.subLog :=
  ⟨s.pool.taskQue_, deqLog_append_queue_eq_subLog s h⟩

/-- Witness for C8 at the initial state. -/
theorem c8_fifo_dequeue_order_witness :
    ∃ pending, initSys.deqLog ++ pending = initSys.subLog :=
  c8_fifo_dequeue_order initSys Relation.ReflTransGen.refl

/-- C9: once the pool is running, all three configuration setters return
    the pool state completely unchanged (threadpool.cpp:36-60 all begin
    with `if (checkRunningState()) return;`). -/
theorem c9_setters_noop_when_running (p : ThreadPool) (mode : PoolMode) (x y : Int)
    (hrun : p.isPoolRunning_ = true) :
    p.setMode mode = p ∧ p.setTaskQueMaxThreshHold x = p ∧ p.setThreadSizeThreshHold y = p := by
  unfold ThreadPool.setMode ThreadPool.setTaskQueMaxThreshHold
    ThreadPool.setThreadSizeThreshHold ThreadPool.checkRunningState
  rw [hrun]
  exact ⟨rfl, rfl, rfl⟩

/-- Witness for C9 on a started pool. -/
theorem c9_setters_noop_when_running_witness :
    c9pool.setMode PoolMode.MODE_CACHED = c9pool ∧
    c9pool.setTaskQueMaxThreshHold 7 = c9pool ∧
    c9pool.setThreadSizeThreshHold 9 = c9pool :=
  c9_setters_noop_when_running c9pool PoolMode.MODE_CACHED 7 9 rfl

/-- C10: before the pool runs, `setThreadSizeThreshHold` changes the
    worker count threshold only when the mode is cached at the time of the
    call (threadpool.cpp:56): in fixed mode the whole pool state is left
    unchanged, while in cached mode the threshold is updated to the
    argument. -/
theorem c10_threshold_set_requires_cached (p : ThreadPool) (x : Int)
    (hrun : p.isPoolRunning_ = false) :
    (p.poolMode_ = PoolMode.MODE_FIXED → p.setThreadSizeThreshHold x = p) ∧
    (p.poolMode_ = PoolMode.MODE_CACHED →
      (p.setThreadSizeThreshHold x).threadSizeThreshHold_ = x) := by
  unfold ThreadPool.setThreadSizeThreshHold ThreadPool.checkRunningState
  rw [hrun]
  constructor
  · intro hm
    rw [hm]
    rfl
  · intro hm
    rw [hm]
    rfl

/-- Witness for C10 on a fresh (fixed-mode, not running) pool. -/
theorem c10_threshold_set_requires_cached_witness :
    ThreadPool.new.setThreadSizeThreshHold 99 = ThreadPool.new :=
  (c10_threshold_set_requires_cached ThreadPool.new 99 rfl).1 rfl

end ThreadPoolCPP

